import Mathlib

/-
Verification development for the aichat repository.

Shallow embedding of:
  - src/client/models_dev.rs : provider-name aliasing, model-type
    classification, models.dev catalog conversion, fetch error reporting,
    and the one-hour process-wide cache of get_models_dev / clear_cache;
  - src/main.rs : the start_directive tool-execution loop.

Conventions of the embedding:
  - HashMap iteration becomes iteration over an association list; the
    claims proved below are order-independent (membership statements).
  - Rust u64 values are Nat; the cast v as isize (a 64-bit two sided
    complement wrap) is modelled explicitly by u64AsI64.
  - f64 price values are only passed through, never computed with; they
    are represented as Rat.
  - Network and clock effects are passed in explicitly: the outcome of a
    single HTTP exchange is a FetchOutcome value and the current time a
    Nat of seconds, so get_models_dev becomes a pure state transformer
    on the cache slot, returning the result, the new cache and the
    number of network fetches it issued.
-/

/-- ASCII lowercase of a string, character by character; the embedding of
Rust to_lowercase as used on ASCII model names and ids. -/
def toLowerStr (s : String) : String := ⟨s.data.map Char.toLower⟩

/-- Boolean test that the first list of characters occurs at the front of
the second. -/
def startsWithCL : List Char → List Char → Bool
  | [], _ => true
  | _ :: _, [] => false
  | a :: as, b :: bs => a == b && startsWithCL as bs

/-- Boolean test that pat occurs as a contiguous run inside hay. -/
def containsCL (pat : List Char) (hay : List Char) : Bool :=
  startsWithCL pat hay ||
    (match hay with
     | [] => false
     | _ :: t => containsCL pat t)

/-- Embedding of Rust str contains: pat occurs as a substring of s. -/
def strContains (s pat : String) : Bool := containsCL pat.data s.data

/-- The modulus of a 64-bit machine word, 2 to the 64. -/
def U64_MOD : Nat := 18446744073709551616

/-- The first value outside the signed 64-bit range, 2 to the 63. -/
def I64_HALF : Nat := 9223372036854775808

/-- Embedding of the Rust cast from u64 to isize on a 64-bit target:
values below 2 to the 63 are unchanged, larger values wrap to negative. -/
def u64AsI64 (v : Nat) : Int :=
  if v % U64_MOD < I64_HALF then ((v % U64_MOD : Nat) : Int)
  else ((v % U64_MOD : Nat) : Int) - ((U64_MOD : Nat) : Int)

/-- Embedding of ModelModalities from src/client/models_dev.rs. -/
structure ModelModalities where
  input : List String
  output : List String
deriving DecidableEq, Repr

/-- Embedding of ModelCost from src/client/models_dev.rs; f64 prices are
carried as Rat and never computed with. -/
structure ModelCost where
  input : Option Rat
  output : Option Rat
  reasoning : Option Rat
  cache_read : Option Rat
  cache_write : Option Rat
  input_audio : Option Rat
  output_audio : Option Rat
deriving DecidableEq, Repr

/-- Embedding of ModelLimit from src/client/models_dev.rs; u64 fields
become Nat. -/
structure ModelLimit where
  context : Option Nat
  input : Option Nat
  output : Option Nat
deriving DecidableEq, Repr

/-- Embedding of ModelDataDev from src/client/models_dev.rs. -/
structure ModelDataDev where
  id : String
  name : String
  family : Option String
  attachment : Bool
  reasoning : Bool
  tool_call : Bool
  temperature : Bool
  knowledge : Option String
  release_date : Option String
  last_updated : Option String
  modalities : ModelModalities
  open_weights : Bool
  cost : ModelCost
  limit : ModelLimit
  status : Option String
deriving DecidableEq, Repr

/-- Embedding of ProviderData from src/client/models_dev.rs; the models
HashMap becomes an association list from model id to model data. -/
structure ProviderData where
  id : String
  name : String
  env : List String
  npm : String
  api : Option String
  doc : Option String
  models : List (String × ModelDataDev)
deriving DecidableEq, Repr

/-- Embedding of ModelsDevResponse from src/client/models_dev.rs; the
flattened provider HashMap becomes an association list. -/
structure ModelsDevResponse where
  providers : List (String × ProviderData)
deriving DecidableEq, Repr

/-- Modelled from the spec: the typed per-model record ModelData lives in
src/client/model.rs, which is not part of the reviewed sources. Its
fields mirror exactly the JSON keys constructed for it in
convert_models_dev_to_provider_models (src/client/models_dev.rs lines
200 to 213), with max_input_tokens a usize, max_output_tokens an isize
and the three chunking fields optional sizes. -/
structure ModelData where
  name : String
  model_type : String
  max_input_tokens : Option Nat
  input_price : Option Rat
  output_price : Option Rat
  max_output_tokens : Option Int
  require_max_tokens : Bool
  supports_vision : Bool
  supports_function_calling : Bool
  max_tokens_per_chunk : Option Nat
  default_chunk_size : Option Nat
  max_batch_size : Option Nat
deriving DecidableEq, Repr

/-- Modelled from the spec: ModelData constructor new (src/client/model.rs,
not part of the reviewed sources), described by the spec as a freshly
defaulted record built from the model id alone; the model type defaults
to chat per section 4.1 of the spec. -/
def ModelData.new (model_id : String) : ModelData :=
  { name := model_id
    model_type := "chat"
    max_input_tokens := none
    input_price := none
    output_price := none
    max_output_tokens := none
    require_max_tokens := false
    supports_vision := false
    supports_function_calling := false
    max_tokens_per_chunk := none
    default_chunk_size := none
    max_batch_size := none }

/-- Embedding of ProviderModels from src/client/model.rs as used by
models_dev.rs: an internal provider name together with its models. -/
structure ProviderModels where
  provider : String
  models : List ModelData
deriving DecidableEq, Repr

/-- Embedding of map_provider_name, src/client/models_dev.rs lines 114
to 128: the Rust match on string literals becomes a chain of equality
tests in the same order, with the wildcard arm returning the input. -/
def map_provider_name (models_dev_id : String) : String :=
  if models_dev_id = "anthropic" then "claude"
  else if models_dev_id = "google" then "gemini"
  else if models_dev_id = "amazon-bedrock" then "bedrock"
  else if models_dev_id = "azure" then "azure-openai"
  else if models_dev_id = "cloudflare-workers-ai" then "cloudflare"
  else if models_dev_id = "moonshotai" then "moonshot"
  else if models_dev_id = "moonshotai-cn" then "moonshot"
  else if models_dev_id = "alibaba" then "qianwen"
  else if models_dev_id = "alibaba-cn" then "qianwen"
  else if models_dev_id = "zai" then "zhipuai"
  else if models_dev_id = "zai-coding-plan" then "zhipuai"
  else models_dev_id

/-- Embedding of determine_model_type, src/client/models_dev.rs lines 131
to 150: case-insensitive substring tests on the model name and id, in the
order of the source. -/
def determine_model_type (model : ModelDataDev) : String :=
  let name_lower := toLowerStr model.name
  let id_lower := toLowerStr model.id
  if strContains name_lower "embed" || strContains id_lower "embed"
      || strContains name_lower "embedding" || strContains id_lower "embedding" then
    "embedding"
  else if strContains name_lower "rerank" || strContains id_lower "rerank" then
    "reranker"
  else
    "chat"

/-- Embedding of the per-model JSON object built in
convert_models_dev_to_provider_models, src/client/models_dev.rs lines 173
to 213: the derived fields of one model before the serde round trip.
The Option or chooses the input limit over the context limit, and the
output limit goes through the u64 to isize cast. -/
def mkModelData (model_id : String) (model_dev : ModelDataDev) : ModelData :=
  { name := model_id
    model_type := determine_model_type model_dev
    max_input_tokens :=
      match model_dev.limit.input with
      | some v => some v
      | none => model_dev.limit.context
    input_price := model_dev.cost.input
    output_price := model_dev.cost.output
    max_output_tokens :=
      match model_dev.limit.output with
      | some v => some (u64AsI64 v)
      | none => none
    require_max_tokens := false
    supports_vision :=
      model_dev.modalities.input.contains "image"
        || model_dev.modalities.input.contains "vision"
    supports_function_calling := model_dev.tool_call
    max_tokens_per_chunk := none
    default_chunk_size := none
    max_batch_size := none }

/-- Modelled from the spec: the serde round trip through
serde_json::from_value into ModelData (the Deserialize implementation
lives in src/client/model.rs, not part of the reviewed sources). The
constructed JSON object carries exactly the fields of the record with
matching types, so on values built by the converter the round trip
succeeds and returns the same record. -/
def modelDataFromValue (d : ModelData) : Option ModelData := some d

/-- Embedding of the embedding-specific fixup block,
src/client/models_dev.rs lines 218 to 234: for models whose type field is
embedding, the per-chunk token budget is taken from the context limit,
else from the input limit, and missing chunking defaults become 1000 and
100. -/
def embedAdjust (model_dev : ModelDataDev) (d : ModelData) : ModelData :=
  if d.model_type = "embedding" then
    let d1 :=
      match model_dev.limit.context with
      | some c => { d with max_tokens_per_chunk := some c }
      | none =>
        match model_dev.limit.input with
        | some i => { d with max_tokens_per_chunk := some i }
        | none => d
    let d2 :=
      if d1.default_chunk_size = none then { d1 with default_chunk_size := some 1000 }
      else d1
    if d2.max_batch_size = none then { d2 with max_batch_size := some 100 }
    else d2
  else d

/-- Embedding of the per-model body of the conversion loop,
src/client/models_dev.rs lines 199 to 236, parameterised by the serde
round trip deser (whose implementation is outside the reviewed sources):
on deserialization failure the code silently falls back to
ModelData.new model_id, and the embedding fixup runs afterwards either
way. -/
def convertOne (deser : ModelData → Option ModelData) (model_id : String)
    (model_dev : ModelDataDev) : ModelData :=
  let model_data :=
    match deser (mkModelData model_id model_dev) with
    | some d => d
    | none => ModelData.new model_id
  embedAdjust model_dev model_data

/-- Embedding of the inner model loop of
convert_models_dev_to_provider_models, src/client/models_dev.rs lines 167
to 237: models whose status is deprecated are skipped, every other model
is converted. -/
def convertModels (deser : ModelData → Option ModelData) :
    List (String × ModelDataDev) → List ModelData
  | [] => []
  | (model_id, model_dev) :: rest =>
    if model_dev.status = some "deprecated" then convertModels deser rest
    else convertOne deser model_id model_dev :: convertModels deser rest

/-- Embedding of the outer provider loop of
convert_models_dev_to_provider_models, src/client/models_dev.rs lines 158
to 245: providers with an empty model map are skipped, the provider name
is remapped, and a provider is emitted only when its converted model list
is non-empty. -/
def convertProviders (deser : ModelData → Option ModelData) :
    List (String × ProviderData) → List ProviderModels
  | [] => []
  | (provider_id, provider_data) :: rest =>
    if provider_data.models = [] then convertProviders deser rest
    else
      let models := convertModels deser provider_data.models
      if models = [] then convertProviders deser rest
      else { provider := map_provider_name provider_id, models := models } ::
        convertProviders deser rest

/-- Embedding of convert_models_dev_to_provider_models,
src/client/models_dev.rs lines 153 to 248, with the serde round trip
instantiated by its spec model modelDataFromValue. -/
def convert_models_dev_to_provider_models (response : ModelsDevResponse) :
    List ProviderModels :=
  convertProviders modelDataFromValue response.providers

/-- The default catalog URL, src/client/models_dev.rs line 8. -/
def MODELS_DEV_API_URL : String := "https://models.dev/api.json"

/-- The cache lifetime in seconds, src/client/models_dev.rs line 9. -/
def CACHE_TTL_SECONDS : Nat := 3600

/-- Embedding of the anyhow result type used by the fetch path: either a
value or an error message string. -/
inductive FetchResult (α : Type) where
  | ok (val : α)
  | error (msg : String)
deriving DecidableEq, Repr

/-- The body of one HTTP exchange once a status line arrived: the payload
is not valid JSON, or is JSON that does not deserialize into the provider
map, or deserializes into a response. -/
inductive FetchBody where
  | badJson
  | badSchema
  | ok (resp : ModelsDevResponse)
deriving DecidableEq, Repr

/-- The outcome of one attempted HTTP exchange, supplied to the embedding
as the network oracle: either a transport or timeout failure before any
status arrived, or a status code with a body. -/
inductive FetchOutcome where
  | transportError
  | response (status : Nat) (body : FetchBody)
deriving DecidableEq, Repr

/-- Error text of a transport failure, src/client/models_dev.rs line 261;
Rust wraps the URL in single quote characters, which are dropped here as
immaterial to the properties proved. -/
def fetchErrorMsg (url : String) : String :=
  "Failed to fetch models from " ++ url

/-- Error text of a non-success HTTP status, src/client/models_dev.rs
lines 264 to 268; the status code renders as its decimal digits. -/
def httpErrorMsg (status : Nat) (url : String) : String :=
  "HTTP error " ++ (toString status ++ (" when fetching models from " ++ url))

/-- Error text of a JSON parse failure, src/client/models_dev.rs line 274. -/
def parseJsonErrorMsg : String := "Failed to parse JSON response from models.dev"

/-- Error text of a schema deserialization failure,
src/client/models_dev.rs line 279. -/
def deserializeErrorMsg : String := "Failed to deserialize models.dev response"

/-- Embedding of reqwest StatusCode is_success: the 2xx range. -/
def statusIsSuccess (status : Nat) : Bool := 200 ≤ status && status < 300

/-- Embedding of fetch_models_dev, src/client/models_dev.rs lines 251 to
282, as a function of the attempted URL and the network oracle outcome:
transport failures and non-success statuses become errors carrying the
URL (and the status), malformed payloads become the two fixed
deserialization errors, and a well-formed payload is returned. -/
def fetch_models_dev (url : String) (outcome : FetchOutcome) :
    FetchResult ModelsDevResponse :=
  match outcome with
  | .transportError => .error (fetchErrorMsg url)
  | .response status body =>
    if statusIsSuccess status then
      match body with
      | .badJson => .error parseJsonErrorMsg
      | .badSchema => .error deserializeErrorMsg
      | .ok resp => .ok resp
    else .error (httpErrorMsg status url)

/-- Embedding of CachedData, src/client/models_dev.rs lines 104 to 108;
the fetch instant becomes a Nat of seconds. -/
structure CachedData where
  data : List ProviderModels
  fetched_at : Nat
deriving DecidableEq, Repr

/-- Result of one get_models_dev call in the state-passing embedding: the
returned value, the cache slot after the call, and how many network
fetches the call issued. -/
structure GetResult where
  result : FetchResult (List ProviderModels)
  cache : Option CachedData
  fetches : Nat
deriving DecidableEq, Repr

/-- Embedding of get_models_dev, src/client/models_dev.rs lines 285 to
314, as a pure state transformer on the cache slot. The clock is the now
argument; SystemTime elapsed succeeds exactly when the stored instant is
not in the future, and the cache is served when the elapsed seconds are
below CACHE_TTL_SECONDS. Otherwise one fetch is issued: on error the
error is returned with the cache untouched, on success the converted
catalog is returned and stored with the current instant. -/
def get_models_dev (urlArg : Option String) (outcome : FetchOutcome)
    (now : Nat) (cache : Option CachedData) : GetResult :=
  let url := urlArg.getD MODELS_DEV_API_URL
  let hit : Option (List ProviderModels) :=
    match cache with
    | some cached =>
      if cached.fetched_at ≤ now then
        if now - cached.fetched_at < CACHE_TTL_SECONDS then some cached.data
        else none
      else none
    | none => none
  match hit with
  | some data => { result := .ok data, cache := cache, fetches := 0 }
  | none =>
    match fetch_models_dev url outcome with
    | .error e => { result := .error e, cache := cache, fetches := 1 }
    | .ok resp =>
      let provider_models := convert_models_dev_to_provider_models resp
      { result := .ok provider_models
        cache := some { data := provider_models, fetched_at := now }
        fetches := 1 }

/-- Embedding of clear_cache, src/client/models_dev.rs lines 318 to 321:
the cache slot is reset to empty. -/
def clear_cache (_cache : Option CachedData) : Option CachedData := none

/-- Embedding of start_directive, src/main.rs lines 304 to 350. The
completion call and the conversation type live in the client and config
modules, which are outside the reviewed sources; modelled from the spec,
they are abstracted into a state type with a completion oracle returning
the output text and the tool results of one turn, and a merge operation
embedding merge_tool_results. The source recurses whenever the tool
result list of a turn is non-empty, with no depth counter and no
recursion limit; the embedding makes the call stack explicit as fuel, and
a none result means the fuel ran out with the loop still recursing.
Printing and session bookkeeping side effects are dropped. -/
def start_directive {σ τ : Type} (complete : σ → String × List τ)
    (merge : σ → String → List τ → σ) : Nat → σ → Option Unit
  | 0, _ => none
  | fuel + 1, input =>
    let turn := complete input
    if turn.2.isEmpty then some ()
    else start_directive complete merge fuel (merge input turn.1 turn.2)

/-- The source ids handled by the alias arms of map_provider_name, in the
order of the source match, src/client/models_dev.rs lines 116 to 125. -/
def aliasSourceIds : List String :=
  ["anthropic", "google", "amazon-bedrock", "azure", "cloudflare-workers-ai",
   "moonshotai", "moonshotai-cn", "alibaba", "alibaba-cn", "zai", "zai-coding-plan"]

/-- Test fixture: a models.dev model entry whose id and name are both the
given string and whose remaining fields take the serde defaults. -/
def sampleDevModel (s : String) : ModelDataDev :=
  { id := s
    name := s
    family := none
    attachment := false
    reasoning := false
    tool_call := false
    temperature := false
    knowledge := none
    release_date := none
    last_updated := none
    modalities := { input := [], output := [] }
    open_weights := false
    cost := { input := none, output := none, reasoning := none, cache_read := none,
              cache_write := none, input_audio := none, output_audio := none }
    limit := { context := none, input := none, output := none }
    status := none }

/-- Test fixture: a live (non-deprecated) model. -/
def liveDevModel : ModelDataDev := sampleDevModel "m-live"

/-- Test fixture: a deprecated model. -/
def deprecatedDevModel : ModelDataDev :=
  { sampleDevModel "m-dead" with status := some "deprecated" }

/-- Test fixture: a provider holding one deprecated and one live model. -/
def sampleProvider : ProviderData :=
  { id := "anthropic", name := "Anthropic", env := [], npm := "", api := none, doc := none,
    models := [("m-dead", deprecatedDevModel), ("m-live", liveDevModel)] }

/-- Test fixture: a provider with an empty model map. -/
def emptyProvider : ProviderData :=
  { id := "empty", name := "Empty", env := [], npm := "", api := none, doc := none,
    models := [] }

/-- Test fixture: a catalog document with an empty provider, and a
provider whose id is an alias and whose models are one deprecated and
one live entry. -/
def sampleResp : ModelsDevResponse :=
  { providers := [("empty", emptyProvider), ("anthropic", sampleProvider)] }

/-- Test fixture: the provider record that survives conversion of
sampleResp. -/
def samplePM : ProviderModels :=
  { provider := "claude", models := [convertOne modelDataFromValue "m-live" liveDevModel] }

/-- Test fixture: a chat model whose declared output limit is exactly 2 to
the 63, the first value on which the u64 to isize cast wraps. -/
def c4CexDev : ModelDataDev :=
  { sampleDevModel "gpt-x" with
    limit := { context := none, input := none, output := some I64_HALF } }

/-- Test fixture: a single-provider catalog around c4CexDev. -/
def c4CexResp : ModelsDevResponse :=
  { providers :=
      [("openai",
        { id := "openai", name := "OpenAI", env := [], npm := "", api := none, doc := none,
          models := [("gpt-x", c4CexDev)] })] }

/-- Test fixture: an embedding model carrying both a context and an input
limit. -/
def embedDevModel : ModelDataDev :=
  { sampleDevModel "text-embedding-3-large" with
    limit := { context := some 8191, input := some 4000, output := none } }

/-- Test fixture: a model with explicit input, context and output limits. -/
def limitsDevModel : ModelDataDev :=
  { sampleDevModel "glm-6" with
    limit := { context := some 200000, input := some 128000, output := some 64000 } }

/-- A pattern is found at the front of any list it starts. -/
theorem startsWithCL_self_append (p r : List Char) : startsWithCL p (p ++ r) = true := by
  induction p with
  | nil => rfl
  | cons a as ih => simp [startsWithCL, ih]

/-- A pattern found at the front of the haystack is contained in it. -/
theorem containsCL_of_front (p h : List Char) (hp : startsWithCL p h = true) :
    containsCL p h = true := by
  rw [containsCL.eq_def, hp, Bool.true_or]

/-- A pattern contained in the tail is contained in the whole list. -/
theorem containsCL_of_tail (p : List Char) (x : Char) (t : List Char)
    (ht : containsCL p t = true) : containsCL p (x :: t) = true := by
  rw [containsCL.eq_def]
  simp only [ht, Bool.or_true]

/-- A pattern is contained in any list of which it is a middle segment. -/
theorem containsCL_append (a p b : List Char) : containsCL p (a ++ (p ++ b)) = true := by
  induction a with
  | nil => exact containsCL_of_front p (p ++ b) (startsWithCL_self_append p b)
  | cons x xs ih => exact containsCL_of_tail p x (xs ++ (p ++ b)) ih

/-- A string contains any of its middle segments, stated through the
underlying character data. -/
theorem strContains_of_data (s a p b : String)
    (h : s.data = a.data ++ (p.data ++ b.data)) : strContains s p = true := by
  rw [strContains, h]
  exact containsCL_append a.data p.data b.data

/-- Any id outside the alias arms passes through map_provider_name
unchanged. -/
theorem map_passthrough {s : String} (hs : s ∉ aliasSourceIds) :
    map_provider_name s = s := by
  simp only [aliasSourceIds, List.mem_cons, List.not_mem_nil, or_false, not_or] at hs
  obtain ⟨h1, h2, h3, h4, h5, h6, h7, h8, h9, h10, h11⟩ := hs
  unfold map_provider_name
  rw [if_neg h1, if_neg h2, if_neg h3, if_neg h4, if_neg h5, if_neg h6, if_neg h7,
    if_neg h8, if_neg h9, if_neg h10, if_neg h11]

/-- The classifier output is always one of the three type names. -/
theorem det_type_cases (m : ModelDataDev) :
    determine_model_type m = "embedding" ∨ determine_model_type m = "reranker"
      ∨ determine_model_type m = "chat" := by
  simp only [determine_model_type]
  split_ifs <;> simp

/-- Characterisation of the embedding classification. -/
theorem det_type_embedding_iff (m : ModelDataDev) :
    determine_model_type m = "embedding" ↔
      (strContains (toLowerStr m.name) "embed" = true
        ∨ strContains (toLowerStr m.id) "embed" = true
        ∨ strContains (toLowerStr m.name) "embedding" = true
        ∨ strContains (toLowerStr m.id) "embedding" = true) := by
  simp only [determine_model_type]
  split_ifs with h1 h2
  · simp only [Bool.or_eq_true] at h1
    exact iff_of_true rfl (by tauto)
  · simp only [Bool.or_eq_true, not_or] at h1
    exact iff_of_false (by decide) (by tauto)
  · simp only [Bool.or_eq_true, not_or] at h1
    exact iff_of_false (by decide) (by tauto)

/-- Characterisation of the reranker classification: it applies only when
the embedding test failed. -/
theorem det_type_reranker_iff (m : ModelDataDev) :
    determine_model_type m = "reranker" ↔
      (¬ (strContains (toLowerStr m.name) "embed" = true
            ∨ strContains (toLowerStr m.id) "embed" = true
            ∨ strContains (toLowerStr m.name) "embedding" = true
            ∨ strContains (toLowerStr m.id) "embedding" = true)
        ∧ (strContains (toLowerStr m.name) "rerank" = true
            ∨ strContains (toLowerStr m.id) "rerank" = true)) := by
  simp only [determine_model_type]
  split_ifs with h1 h2
  · simp only [Bool.or_eq_true] at h1
    exact iff_of_false (by decide) (by tauto)
  · simp only [Bool.or_eq_true, not_or] at h1
    simp only [Bool.or_eq_true] at h2
    exact iff_of_true rfl (by tauto)
  · simp only [Bool.or_eq_true, not_or] at h1
    simp only [Bool.or_eq_true, not_or] at h2
    exact iff_of_false (by decide) (by tauto)

/-- Characterisation of the chat default. -/
theorem det_type_chat_iff (m : ModelDataDev) :
    determine_model_type m = "chat" ↔
      (¬ (strContains (toLowerStr m.name) "embed" = true
            ∨ strContains (toLowerStr m.id) "embed" = true
            ∨ strContains (toLowerStr m.name) "embedding" = true
            ∨ strContains (toLowerStr m.id) "embedding" = true)
        ∧ ¬ (strContains (toLowerStr m.name) "rerank" = true
            ∨ strContains (toLowerStr m.id) "rerank" = true)) := by
  simp only [determine_model_type]
  split_ifs with h1 h2
  · simp only [Bool.or_eq_true] at h1
    exact iff_of_false (by decide) (by tauto)
  · simp only [Bool.or_eq_true, not_or] at h1
    simp only [Bool.or_eq_true] at h2
    exact iff_of_false (by decide) (by tauto)
  · simp only [Bool.or_eq_true, not_or] at h1
    simp only [Bool.or_eq_true, not_or] at h2
    exact iff_of_true rfl (by tauto)

/-- C3: determine_model_type is a function of the model id and display
name returning exactly one of embedding, reranker and chat; it returns
embedding when the lower-cased name or id contains embed or embedding,
otherwise reranker when one of them contains rerank, otherwise chat; and
on the three sample names it returns embedding, reranker and chat
respectively. -/
theorem determine_model_type_correct :
    (∀ m : ModelDataDev,
      determine_model_type m = "embedding" ∨ determine_model_type m = "reranker"
        ∨ determine_model_type m = "chat")
  ∧ (∀ m : ModelDataDev,
      determine_model_type m = "embedding" ↔
        (strContains (toLowerStr m.name) "embed" = true
          ∨ strContains (toLowerStr m.id) "embed" = true
          ∨ strContains (toLowerStr m.name) "embedding" = true
          ∨ strContains (toLowerStr m.id) "embedding" = true))
  ∧ (∀ m : ModelDataDev,
      determine_model_type m = "reranker" ↔
        (¬ (strContains (toLowerStr m.name) "embed" = true
              ∨ strContains (toLowerStr m.id) "embed" = true
              ∨ strContains (toLowerStr m.name) "embedding" = true
              ∨ strContains (toLowerStr m.id) "embedding" = true)
          ∧ (strContains (toLowerStr m.name) "rerank" = true
              ∨ strContains (toLowerStr m.id) "rerank" = true)))
  ∧ (∀ m : ModelDataDev,
      determine_model_type m = "chat" ↔
        (¬ (strContains (toLowerStr m.name) "embed" = true
              ∨ strContains (toLowerStr m.id) "embed" = true
              ∨ strContains (toLowerStr m.name) "embedding" = true
              ∨ strContains (toLowerStr m.id) "embedding" = true)
          ∧ ¬ (strContains (toLowerStr m.name) "rerank" = true
              ∨ strContains (toLowerStr m.id) "rerank" = true)))
  ∧ determine_model_type (sampleDevModel "text-embedding-3-large") = "embedding"
  ∧ determine_model_type (sampleDevModel "rerank-english-v3") = "reranker"
  ∧ determine_model_type (sampleDevModel "gpt-4o") = "chat" :=
  ⟨det_type_cases, det_type_embedding_iff, det_type_reranker_iff, det_type_chat_iff,
   by decide, by decide, by decide⟩

/-- C5: map_provider_name maps each known alias to its fixed internal key
(stated over the alias list in source order) and is the identity on every
id outside the alias table. -/
theorem map_provider_name_total_aliases :
    aliasSourceIds.map map_provider_name =
      ["claude", "gemini", "bedrock", "azure-openai", "cloudflare",
       "moonshot", "moonshot", "qianwen", "qianwen", "zhipuai", "zhipuai"]
  ∧ ∀ s : String, s ∉ aliasSourceIds → map_provider_name s = s :=
  ⟨by decide, fun _ hs => map_passthrough hs⟩

/-- C5 witness: a concrete unknown id passes through unchanged. -/
theorem map_provider_name_total_aliases_witness :
    "openai" ∉ aliasSourceIds ∧ map_provider_name "openai" = "openai" :=
  ⟨by decide, map_provider_name_total_aliases.2 "openai" (by decide)⟩

/-- C10: map_provider_name is idempotent: no internal key produced by an
alias arm is itself matched by an alias arm. -/
theorem map_provider_name_idempotent :
    ∀ s : String, map_provider_name (map_provider_name s) = map_provider_name s := by
  intro s
  by_cases hs : s ∈ aliasSourceIds
  · simp only [aliasSourceIds, List.mem_cons, List.not_mem_nil, or_false] at hs
    rcases hs with rfl | rfl | rfl | rfl | rfl | rfl | rfl | rfl | rfl | rfl | rfl <;> decide
  · rw [map_passthrough hs, map_passthrough hs]

/-- The embedding fixup never touches the name, type, token-limit, price
or capability fields of a record. -/
theorem embedAdjust_fields (md : ModelDataDev) (d : ModelData) :
    (embedAdjust md d).name = d.name
  ∧ (embedAdjust md d).model_type = d.model_type
  ∧ (embedAdjust md d).max_input_tokens = d.max_input_tokens
  ∧ (embedAdjust md d).max_output_tokens = d.max_output_tokens := by
  unfold embedAdjust
  by_cases h : d.model_type = "embedding"
  · rw [if_pos h]
    rcases hctx : md.limit.context with _ | c <;>
      rcases hin : md.limit.input with _ | i <;>
        dsimp only <;> split_ifs <;> simp_all
  · rw [if_neg h]
    exact ⟨rfl, rfl, rfl, rfl⟩

/-- The embedding fixup is the identity on records not typed embedding. -/
theorem embedAdjust_nonembed (md : ModelDataDev) (d : ModelData)
    (h : ¬ d.model_type = "embedding") : embedAdjust md d = d := by
  unfold embedAdjust
  rw [if_neg h]

/-- On a record typed embedding whose chunking fields are still unset, the
fixup derives the per-chunk budget from the context limit, else the input
limit, and fills in the default chunk size and batch size. -/
theorem embedAdjust_embed (md : ModelDataDev) (d : ModelData)
    (h : d.model_type = "embedding") (hd : d.default_chunk_size = none)
    (hb : d.max_batch_size = none) :
    (embedAdjust md d).max_tokens_per_chunk =
      (match md.limit.context, md.limit.input, d.max_tokens_per_chunk with
       | some c, _, _ => some c
       | none, some i, _ => some i
       | none, none, m => m)
  ∧ (embedAdjust md d).default_chunk_size = some 1000
  ∧ (embedAdjust md d).max_batch_size = some 100 := by
  unfold embedAdjust
  rw [if_pos h]
  rcases hctx : md.limit.context with _ | c <;>
    rcases hin : md.limit.input with _ | i <;>
      dsimp only <;> split_ifs <;> simp_all

/-- With the successful round trip, the per-model conversion is the fixup
applied to the derived record. -/
theorem convertOne_eq (model_id : String) (model_dev : ModelDataDev) :
    convertOne modelDataFromValue model_id model_dev
      = embedAdjust model_dev (mkModelData model_id model_dev) := rfl

/-- The u64 to isize cast is the identity below 2 to the 63. -/
theorem u64AsI64_of_lt {v : Nat} (hv : v < I64_HALF) : u64AsI64 v = (v : Int) := by
  have hlt : v < U64_MOD := lt_trans hv (by decide)
  rw [u64AsI64, Nat.mod_eq_of_lt hlt, if_pos hv]

/-- C4 counterexample: a model whose declared output limit is exactly 2 to
the 63 converts, through the u64 to isize cast, to a negative
max_output_tokens and not to the declared limit. -/
theorem convert_max_output_wrap_counterexample :
    c4CexDev.limit.output = some I64_HALF
  ∧ convert_models_dev_to_provider_models c4CexResp
      = [{ provider := "openai",
           models := [convertOne modelDataFromValue "gpt-x" c4CexDev] }]
  ∧ (convertOne modelDataFromValue "gpt-x" c4CexDev).max_output_tokens
      = some (-(9223372036854775808 : Int))
  ∧ ¬ (convertOne modelDataFromValue "gpt-x" c4CexDev).max_output_tokens
      = some ((I64_HALF : Nat) : Int) :=
  ⟨rfl, by decide, by decide, by decide⟩

/-- C4 (amended): for every converted model entry, max_input_tokens is the
explicit input limit when present, else the context limit; and
max_output_tokens is absent when no output limit is declared, and
otherwise is the declared output limit sent through the u64 to isize
cast, which is the identity below 2 to the 63. -/
theorem convert_token_limit_derivation :
    ∀ (model_id : String) (model_dev : ModelDataDev),
      (∀ v, model_dev.limit.input = some v →
        (convertOne modelDataFromValue model_id model_dev).max_input_tokens = some v)
    ∧ (model_dev.limit.input = none →
        (convertOne modelDataFromValue model_id model_dev).max_input_tokens
          = model_dev.limit.context)
    ∧ (model_dev.limit.output = none →
        (convertOne modelDataFromValue model_id model_dev).max_output_tokens = none)
    ∧ (∀ v, model_dev.limit.output = some v →
        (convertOne modelDataFromValue model_id model_dev).max_output_tokens
          = some (u64AsI64 v))
    ∧ (∀ v, model_dev.limit.output = some v → v < I64_HALF →
        (convertOne modelDataFromValue model_id model_dev).max_output_tokens
          = some ((v : Nat) : Int)) := by
  intro model_id model_dev
  have hp := embedAdjust_fields model_dev (mkModelData model_id model_dev)
  rw [convertOne_eq]
  refine ⟨?_, ?_, ?_, ?_, ?_⟩
  · intro v hv
    rw [hp.2.2.1]
    simp [mkModelData, hv]
  · intro hv
    rw [hp.2.2.1]
    simp [mkModelData, hv]
  · intro hv
    rw [hp.2.2.2]
    simp [mkModelData, hv]
  · intro v hv
    rw [hp.2.2.2]
    simp [mkModelData, hv]
  · intro v hv hlt
    rw [hp.2.2.2]
    simp [mkModelData, hv, u64AsI64_of_lt hlt]

/-- C4 witness: on a model declaring input, context and output limits, the
converted record takes the input limit and the output limit unchanged. -/
theorem convert_token_limit_derivation_witness :
    (convertOne modelDataFromValue "glm-6" limitsDevModel).max_input_tokens = some 128000
  ∧ (convertOne modelDataFromValue "glm-6" limitsDevModel).max_output_tokens = some 64000 :=
  ⟨(convert_token_limit_derivation "glm-6" limitsDevModel).1 128000 rfl,
   (convert_token_limit_derivation "glm-6" limitsDevModel).2.2.2.2 64000 rfl (by decide)⟩

/-- C9: whenever the serde round trip fails on the constructed per-model
value, the converter silently yields the freshly defaulted record built
from the model id alone, discarding every derived value. -/
theorem deser_failure_yields_default_record :
    ∀ (deser : ModelData → Option ModelData) (model_id : String)
      (model_dev : ModelDataDev),
      deser (mkModelData model_id model_dev) = none →
      convertOne deser model_id model_dev = ModelData.new model_id := by
  intro deser model_id model_dev h
  unfold convertOne
  rw [h]
  exact embedAdjust_nonembed model_dev (ModelData.new model_id) (by simp [ModelData.new])

/-- C9 witness: a round trip that rejects everything sends a concrete
model to the defaulted record. -/
theorem deser_failure_yields_default_record_witness :
    convertOne (fun _ => none) "m1" (sampleDevModel "m1") = ModelData.new "m1" :=
  deser_failure_yields_default_record (fun _ => none) "m1" (sampleDevModel "m1") rfl

/-- C8: every model classified embedding receives a per-chunk token budget
from the context limit, else from the input limit, and always receives
the default chunk size 1000 and batch size 100. -/
theorem embedding_chunk_budget_defaults :
    ∀ (model_id : String) (model_dev : ModelDataDev),
      determine_model_type model_dev = "embedding" →
      (∀ c, model_dev.limit.context = some c →
        (convertOne modelDataFromValue model_id model_dev).max_tokens_per_chunk = some c)
    ∧ (model_dev.limit.context = none → ∀ i, model_dev.limit.input = some i →
        (convertOne modelDataFromValue model_id model_dev).max_tokens_per_chunk = some i)
    ∧ (convertOne modelDataFromValue model_id model_dev).default_chunk_size = some 1000
    ∧ (convertOne modelDataFromValue model_id model_dev).max_batch_size = some 100 := by
  intro model_id model_dev h
  have hm : (mkModelData model_id model_dev).model_type = "embedding" := by
    simp [mkModelData, h]
  have he := embedAdjust_embed model_dev (mkModelData model_id model_dev) hm rfl rfl
  rw [convertOne_eq]
  refine ⟨?_, ?_, he.2.1, he.2.2⟩
  · intro c hc
    rw [he.1, hc]
  · intro hc i hi
    rw [he.1, hc, hi]

/-- C8 witness: an embedding model with both limits takes the context
limit as its chunk budget and the default batching values. -/
theorem embedding_chunk_budget_defaults_witness :
    (convertOne modelDataFromValue "text-embedding-3-large" embedDevModel).max_tokens_per_chunk
      = some 8191
  ∧ (convertOne modelDataFromValue "text-embedding-3-large" embedDevModel).default_chunk_size
      = some 1000
  ∧ (convertOne modelDataFromValue "text-embedding-3-large" embedDevModel).max_batch_size
      = some 100 :=
  ⟨(embedding_chunk_budget_defaults "text-embedding-3-large" embedDevModel (by decide)).1
      8191 rfl,
   (embedding_chunk_budget_defaults "text-embedding-3-large" embedDevModel (by decide)).2.2.1,
   (embedding_chunk_budget_defaults "text-embedding-3-large" embedDevModel (by decide)).2.2.2⟩

/-- Every record produced by the inner model loop comes from a source
entry that is not deprecated, converted by the per-model body. -/
theorem mem_convertModels {deser : ModelData → Option ModelData}
    {ms : List (String × ModelDataDev)} {d : ModelData}
    (hd : d ∈ convertModels deser ms) :
    ∃ model_id model_dev, (model_id, model_dev) ∈ ms
      ∧ ¬ model_dev.status = some "deprecated"
      ∧ d = convertOne deser model_id model_dev := by
  induction ms with
  | nil => cases hd
  | cons p rest ih =>
    obtain ⟨mid, md⟩ := p
    rw [convertModels] at hd
    by_cases hs : md.status = some "deprecated"
    · rw [if_pos hs] at hd
      obtain ⟨mid2, md2, hmem, hst, hdef⟩ := ih hd
      exact ⟨mid2, md2, List.mem_cons_of_mem _ hmem, hst, hdef⟩
    · rw [if_neg hs] at hd
      rcases List.mem_cons.mp hd with h | h
      · exact ⟨mid, md, List.mem_cons_self _ _, hs, h⟩
      · obtain ⟨mid2, md2, hmem, hst, hdef⟩ := ih h
        exact ⟨mid2, md2, List.mem_cons_of_mem _ hmem, hst, hdef⟩

/-- Every provider record produced by the outer loop comes from a source
provider with a non-empty model map, carries the remapped provider name,
holds exactly the converted surviving models, and is itself non-empty. -/
theorem mem_convertProviders {deser : ModelData → Option ModelData}
    {ps : List (String × ProviderData)} {pm : ProviderModels}
    (hpm : pm ∈ convertProviders deser ps) :
    ∃ provider_id provider_data, (provider_id, provider_data) ∈ ps
      ∧ ¬ provider_data.models = []
      ∧ pm.provider = map_provider_name provider_id
      ∧ pm.models = convertModels deser provider_data.models
      ∧ ¬ pm.models = [] := by
  induction ps with
  | nil => cases hpm
  | cons p rest ih =>
    obtain ⟨pid, pd⟩ := p
    rw [convertProviders] at hpm
    by_cases hempty : pd.models = []
    · rw [if_pos hempty] at hpm
      obtain ⟨pid2, pd2, hmem, hne, hprov, hmodels, hnem⟩ := ih hpm
      exact ⟨pid2, pd2, List.mem_cons_of_mem _ hmem, hne, hprov, hmodels, hnem⟩
    · rw [if_neg hempty] at hpm
      by_cases hml : convertModels deser pd.models = []
      · simp only [if_pos hml] at hpm
        obtain ⟨pid2, pd2, hmem, hne, hprov, hmodels, hnem⟩ := ih hpm
        exact ⟨pid2, pd2, List.mem_cons_of_mem _ hmem, hne, hprov, hmodels, hnem⟩
      · simp only [if_neg hml] at hpm
        rcases List.mem_cons.mp hpm with h | h
        · refine ⟨pid, pd, List.mem_cons_self _ _, hempty, ?_, ?_, ?_⟩
          · rw [h]
          · rw [h]
          · rw [h]
            exact hml
        · obtain ⟨pid2, pd2, hmem, hne, hprov, hmodels, hnem⟩ := ih h
          exact ⟨pid2, pd2, List.mem_cons_of_mem _ hmem, hne, hprov, hmodels, hnem⟩

/-- C6: the conversion result holds no provider with an empty model list,
and every model it holds comes from a non-deprecated source entry of a
provider with a non-empty model map. -/
theorem convert_excludes_deprecated_and_empty :
    ∀ (r : ModelsDevResponse) (pm : ProviderModels),
      pm ∈ convert_models_dev_to_provider_models r →
      ¬ pm.models = []
      ∧ ∀ d ∈ pm.models,
        ∃ provider_id provider_data model_id model_dev,
          (provider_id, provider_data) ∈ r.providers
          ∧ pm.provider = map_provider_name provider_id
          ∧ (model_id, model_dev) ∈ provider_data.models
          ∧ ¬ model_dev.status = some "deprecated"
          ∧ d = convertOne modelDataFromValue model_id model_dev := by
  intro r pm hpm
  unfold convert_models_dev_to_provider_models at hpm
  obtain ⟨pid, pd, hmem, hne, hprov, hmodels, hnem⟩ := mem_convertProviders hpm
  refine ⟨hnem, ?_⟩
  intro d hd
  rw [hmodels] at hd
  obtain ⟨mid, md, hmm, hst, hdef⟩ := mem_convertModels hd
  exact ⟨pid, pd, mid, md, hmem, hprov, hmm, hst, hdef⟩

/-- C6 witness: the surviving provider of the sample catalog document has
a non-empty model list. -/
theorem convert_excludes_deprecated_and_empty_witness :
    ¬ samplePM.models = [] :=
  (convert_excludes_deprecated_and_empty sampleResp samplePM (by decide)).1

/-- A cache entry fetched less than the lifetime ago is served back with
no fetch and no state change. -/
theorem get_hit (u : Option String) (o : FetchOutcome) (now : Nat) (c : CachedData)
    (h1 : c.fetched_at ≤ now) (h2 : now - c.fetched_at < CACHE_TTL_SECONDS) :
    get_models_dev u o now (some c)
      = { result := .ok c.data, cache := some c, fetches := 0 } := by
  unfold get_models_dev
  simp [h1, h2]

/-- A call on an empty cache slot with a successful exchange stores the
converted catalog stamped with the current instant. -/
theorem get_cold_success (u : Option String) (now status : Nat) (resp : ModelsDevResponse)
    (hs : statusIsSuccess status = true) :
    get_models_dev u (.response status (.ok resp)) now none
      = { result := .ok (convert_models_dev_to_provider_models resp)
          cache := some { data := convert_models_dev_to_provider_models resp
                          fetched_at := now }
          fetches := 1 } := by
  unfold get_models_dev fetch_models_dev
  simp [hs]

/-- A call on an expired cache entry with a successful exchange replaces
the entry with the freshly converted catalog. -/
theorem get_expired_success (u : Option String) (now status : Nat)
    (resp : ModelsDevResponse) (c : CachedData) (hs : statusIsSuccess status = true)
    (h1 : c.fetched_at ≤ now) (h2 : CACHE_TTL_SECONDS ≤ now - c.fetched_at) :
    get_models_dev u (.response status (.ok resp)) now (some c)
      = { result := .ok (convert_models_dev_to_provider_models resp)
          cache := some { data := convert_models_dev_to_provider_models resp
                          fetched_at := now }
          fetches := 1 } := by
  unfold get_models_dev fetch_models_dev
  simp [h1, Nat.not_lt.mpr h2, hs]

/-- A call on an empty cache slot always issues exactly one fetch. -/
theorem get_miss_fetches (u : Option String) (o : FetchOutcome) (now : Nat) :
    (get_models_dev u o now none).fetches = 1 := by
  unfold get_models_dev
  rcases hf : fetch_models_dev (u.getD MODELS_DEV_API_URL) o with r | msg <;> simp [hf]

/-- A call on an expired cache entry always issues exactly one fetch. -/
theorem get_expired_fetches (u : Option String) (o : FetchOutcome) (now : Nat)
    (c : CachedData) (h1 : c.fetched_at ≤ now)
    (h2 : CACHE_TTL_SECONDS ≤ now - c.fetched_at) :
    (get_models_dev u o now (some c)).fetches = 1 := by
  unfold get_models_dev
  rcases hf : fetch_models_dev (u.getD MODELS_DEV_API_URL) o with r | msg <;>
    simp [h1, Nat.not_lt.mpr h2, hf]

/-- C2: a cache entry younger than one hour is served without a network
fetch and unchanged; an empty, expired or cleared slot issues exactly one
fetch, storing the converted result on success; hence two refreshes
within the lifetime issue one fetch in total, and a refresh after expiry
issues exactly one more. -/
theorem get_models_dev_cache_correct :
    (∀ (u : Option String) (o : FetchOutcome) (now : Nat) (c : CachedData),
      c.fetched_at ≤ now → now - c.fetched_at < CACHE_TTL_SECONDS →
      get_models_dev u o now (some c)
        = { result := .ok c.data, cache := some c, fetches := 0 })
  ∧ (∀ (u : Option String) (now status : Nat) (resp : ModelsDevResponse),
      statusIsSuccess status = true →
      get_models_dev u (.response status (.ok resp)) now none
        = { result := .ok (convert_models_dev_to_provider_models resp)
            cache := some { data := convert_models_dev_to_provider_models resp
                            fetched_at := now }
            fetches := 1 })
  ∧ (∀ (u : Option String) (now status : Nat) (resp : ModelsDevResponse) (c : CachedData),
      statusIsSuccess status = true → c.fetched_at ≤ now →
      CACHE_TTL_SECONDS ≤ now - c.fetched_at →
      get_models_dev u (.response status (.ok resp)) now (some c)
        = { result := .ok (convert_models_dev_to_provider_models resp)
            cache := some { data := convert_models_dev_to_provider_models resp
                            fetched_at := now }
            fetches := 1 })
  ∧ (∀ (u : Option String) (o : FetchOutcome) (now : Nat) (c : Option CachedData),
      (get_models_dev u o now (clear_cache c)).fetches = 1)
  ∧ (∀ (u : Option String) (o2 : FetchOutcome) (t0 t1 status : Nat)
        (resp : ModelsDevResponse),
      statusIsSuccess status = true → t0 ≤ t1 → t1 - t0 < CACHE_TTL_SECONDS →
      (get_models_dev u (.response status (.ok resp)) t0 none).fetches
        + (get_models_dev u o2 t1
            (get_models_dev u (.response status (.ok resp)) t0 none).cache).fetches = 1
      ∧ (get_models_dev u o2 t1
          (get_models_dev u (.response status (.ok resp)) t0 none).cache).result
          = .ok (convert_models_dev_to_provider_models resp))
  ∧ (∀ (u : Option String) (o2 : FetchOutcome) (t0 t2 status : Nat)
        (resp : ModelsDevResponse),
      statusIsSuccess status = true → t0 ≤ t2 → CACHE_TTL_SECONDS ≤ t2 - t0 →
      (get_models_dev u o2 t2
        (get_models_dev u (.response status (.ok resp)) t0 none).cache).fetches = 1) := by
  refine ⟨get_hit, get_cold_success, get_expired_success, ?_, ?_, ?_⟩
  · intro u o now c
    rw [clear_cache]
    exact get_miss_fetches u o now
  · intro u o2 t0 t1 status resp hs h01 hlt
    rw [get_cold_success u t0 status resp hs]
    rw [get_hit u o2 t1 _ h01 hlt]
    exact ⟨rfl, rfl⟩
  · intro u o2 t0 t2 status resp hs h02 hexp
    rw [get_cold_success u t0 status resp hs]
    exact get_expired_fetches u o2 t2 _ h02 hexp

/-- C2 witness: a cold refresh at instant 0 followed by a refresh at
instant 10 issues one fetch in total, even when the network would fail on
the second call. -/
theorem get_models_dev_cache_correct_witness :
    (get_models_dev none (.response 200 (.ok sampleResp)) 0 none).fetches
      + (get_models_dev none .transportError 10
          (get_models_dev none (.response 200 (.ok sampleResp)) 0 none).cache).fetches = 1
  ∧ (get_models_dev none .transportError 10
      (get_models_dev none (.response 200 (.ok sampleResp)) 0 none).cache).result
      = .ok (convert_models_dev_to_provider_models sampleResp) :=
  get_models_dev_cache_correct.2.2.2.2.1 none .transportError 0 10 200 sampleResp
    (by decide) (by decide) (by decide)

/-- C7 counterexample: at a concrete custom URL, a malformed JSON body
makes get_models_dev return the fixed parse error message, which does not
contain the attempted URL, refuting the claim that every failure carries
it; the cache slot is nonetheless left unchanged. -/
theorem get_models_dev_json_error_lacks_url :
    get_models_dev (some "http://example.com/models.json") (.response 200 .badJson) 0 none
      = { result := .error parseJsonErrorMsg, cache := none, fetches := 1 }
  ∧ strContains parseJsonErrorMsg "http://example.com/models.json" = false :=
  ⟨by decide, by decide⟩

/-- C7 (amended): transport failures and non-success statuses produce
errors carrying the attempted URL, the status error also its status code;
malformed payloads produce the two fixed deserialization error messages,
which carry neither; and every failing call leaves the cache slot exactly
as it was. -/
theorem fetch_error_reporting_cache_intact :
    (∀ url : String,
      fetch_models_dev url .transportError = .error (fetchErrorMsg url)
      ∧ strContains (fetchErrorMsg url) url = true)
  ∧ (∀ (url : String) (status : Nat) (body : FetchBody),
      statusIsSuccess status = false →
      fetch_models_dev url (.response status body) = .error (httpErrorMsg status url)
      ∧ strContains (httpErrorMsg status url) url = true
      ∧ strContains (httpErrorMsg status url) (toString status) = true)
  ∧ (∀ (url : String) (status : Nat),
      statusIsSuccess status = true →
      fetch_models_dev url (.response status .badJson) = .error parseJsonErrorMsg
      ∧ fetch_models_dev url (.response status .badSchema) = .error deserializeErrorMsg)
  ∧ (∀ (u : Option String) (o : FetchOutcome) (now : Nat) (cache : Option CachedData)
        (e : String),
      (get_models_dev u o now cache).result = .error e →
      (get_models_dev u o now cache).cache = cache) := by
  refine ⟨?_, ?_, ?_, ?_⟩
  · intro url
    refine ⟨rfl, ?_⟩
    exact strContains_of_data (fetchErrorMsg url) "Failed to fetch models from " url ""
      (by simp [fetchErrorMsg, String.data_append])
  · intro url status body hst
    refine ⟨?_, ?_, ?_⟩
    · unfold fetch_models_dev
      simp [hst]
    · exact strContains_of_data (httpErrorMsg status url)
        ("HTTP error " ++ (toString status ++ " when fetching models from ")) url ""
        (by simp [httpErrorMsg, String.data_append])
    · exact strContains_of_data (httpErrorMsg status url)
        "HTTP error " (toString status) (" when fetching models from " ++ url)
        (by simp [httpErrorMsg, String.data_append])
  · intro url status hst
    constructor <;> (unfold fetch_models_dev; simp [hst])
  · intro u o now cache e
    unfold get_models_dev
    rcases cache with _ | c
    · rcases hf : fetch_models_dev (u.getD MODELS_DEV_API_URL) o with r | msg <;> simp [hf]
    · by_cases h1 : c.fetched_at ≤ now
      · by_cases h2 : now - c.fetched_at < CACHE_TTL_SECONDS
        · simp [h1, h2]
        · rcases hf : fetch_models_dev (u.getD MODELS_DEV_API_URL) o with r | msg <;>
            simp [h1, h2, hf]
      · rcases hf : fetch_models_dev (u.getD MODELS_DEV_API_URL) o with r | msg <;>
          simp [h1, hf]

/-- C7 witness: a 404 status at a concrete URL yields an error carrying
both the URL and the status digits. -/
theorem fetch_error_reporting_cache_intact_witness :
    fetch_models_dev "u" (.response 404 .badJson) = .error (httpErrorMsg 404 "u")
  ∧ strContains (httpErrorMsg 404 "u") "u" = true
  ∧ strContains (httpErrorMsg 404 "u") (toString 404) = true :=
  fetch_error_reporting_cache_intact.2.1 "u" 404 .badJson (by decide)

set_option maxRecDepth 8000 in
/-- C1 counterexample: with a completion oracle that requests a tool call
on every turn, the loop is still recursing after 300 turns, having
reported nothing: the source carries no depth counter and no
RecursionLimitExceeded error at all, so no bound can be reached. -/
theorem start_directive_still_recursing_at_300 :
    start_directive (fun _n : Nat => ("", [(0 : Nat)])) (fun n _ _ => n + 1) 300 0
      = none := by decide

/-- C1 (amended): start_directive caps nothing: whenever every completion
call returns a non-empty tool result list, the loop recurses without
bound, never reaching a terminal state at any depth and never reporting
any error, because the source has no recursion limit. -/
theorem start_directive_forever_tools_never_terminates :
    ∀ {σ τ : Type} (complete : σ → String × List τ)
      (merge : σ → String → List τ → σ),
      (∀ s, (complete s).2 ≠ []) →
      ∀ (fuel : Nat) (input : σ),
        start_directive complete merge fuel input = none := by
  intro σ τ complete merge h fuel
  induction fuel with
  | zero => intro input; rfl
  | succ n ih =>
    intro input
    rw [start_directive]
    have hne : (complete input).2.isEmpty = false :=
      List.isEmpty_eq_false.mpr (h input)
    simp only [hne, Bool.false_eq_true, if_false]
    exact ih (merge input (complete input).1 (complete input).2)

/-- C1 witness: the always-tools oracle at fuel 5 never terminates. -/
theorem start_directive_forever_tools_never_terminates_witness :
    start_directive (fun _n : Nat => ("", [(0 : Nat)])) (fun n _ _ => n + 1) 5 0
      = none :=
  start_directive_forever_tools_never_terminates
    (fun _n : Nat => ("", [(0 : Nat)])) (fun n _ _ => n + 1)
    (fun s => by simp) 5 0
